import Mathlib

/-!
Verification of the autopost video queue and upload operations.

Shallow embedding of `src/main.py` (class `ModernSocialMediaGUI`): the video
queue data model and the operations `add_videos`, `save_video_changes`,
`remove_video`, `upload_single_video`, `upload_all_videos` and `load_config`.
GUI widget construction is out of scope; the embedded functions are the exact
data transformations those methods perform on `self.videos`,
`self.credentials` and the progress bar.
-/

namespace Autopost

/-- A queued video, mirroring the dict literal built in `add_videos`
(src/main.py:389-399).  Python stores `status` as one of the strings
"pending", "uploading", "completed", "failed"; we keep it a `String` as the
source compares it with string equality. -/
structure Video where
  id : Nat
  path : String
  name : String
  title : String
  description : String
  tags : List String
  platforms : List String
  privacy : String
  status : String
deriving DecidableEq, Repr

/-- YouTube credential record (src/main.py:43). -/
structure YoutubeCreds where
  client_id : String
  client_secret : String
  authenticated : Bool
deriving DecidableEq, Repr

/-- Instagram credential record (src/main.py:44). -/
structure InstagramCreds where
  username : String
  password : String
  authenticated : Bool
deriving DecidableEq, Repr

/-- The `self.credentials` dict (src/main.py:42-45). -/
structure Credentials where
  youtube : YoutubeCreds
  instagram : InstagramCreds
deriving DecidableEq, Repr

/-- The initial value of `self.credentials`: empty strings, not
authenticated (src/main.py:42-45). -/
def initialCredentials : Credentials :=
  { youtube := { client_id := "", client_secret := "", authenticated := false }
    instagram := { username := "", password := "", authenticated := false } }

/- Path helpers.  `add_videos` derives `name` and `title` from the file path
with `pathlib.Path(file_path).name` and `.stem`.  We embed these as
character-list functions: `name` is the part after the last path separator,
`stem` is the name with its final dot-suffix removed (a suffix must start
after position 0 and end before the end of the name, matching how pathlib
treats dotfiles and trailing dots). -/

/-- Characters after the last slash (pathlib `.name`). -/
def afterLastSlash (cs : List Char) : List Char :=
  cs.foldl (fun acc c => if c = '/' then [] else acc ++ [c]) []

/-- Index of the last dot in a character list, if any. -/
def lastDotIdx : List Char → Option Nat
  | [] => none
  | c :: cs =>
    match lastDotIdx cs with
    | some i => some (i + 1)
    | none => if c = '.' then some 0 else none

/-- pathlib `.stem` applied to a file name: drop the final suffix when the
last dot is neither the first character nor the last. -/
def stemOfName (cs : List Char) : List Char :=
  match lastDotIdx cs with
  | some i => if 0 < i ∧ i + 1 < cs.length then cs.take i else cs
  | none => cs

/-- `Path(p).name` on the embedded path string. -/
def pathName (p : String) : String := String.mk (afterLastSlash p.data)

/-- `Path(p).stem` on the embedded path string. -/
def pathStem (p : String) : String := String.mk (stemOfName (afterLastSlash p.data))

/- add_videos (src/main.py:378-403). -/

/-- The dict literal of `add_videos` (src/main.py:389-399): `n` is the length
of `self.videos` at the moment this file is processed, so the assigned id is
`n + 1` (`len(self.videos) + 1` in the source). -/
def newVideo (n : Nat) (filePath : String) : Video :=
  { id := n + 1
    path := filePath
    name := pathName filePath
    title := pathStem filePath
    description := ""
    tags := []
    platforms := ["youtube"]
    privacy := "public"
    status := "pending" }

/-- One iteration of the `for file_path in files` loop of `add_videos`:
append the new video to `self.videos`. -/
def addVideo (videos : List Video) (filePath : String) : List Video :=
  videos ++ [newVideo videos.length filePath]

/-- The whole `add_videos` loop over the selected files. -/
def addVideos (videos : List Video) (files : List String) : List Video :=
  files.foldl addVideo videos

/- save_video_changes (src/main.py:469-499). -/

/-- Python `str.strip` whitespace test, restricted to the whitespace
characters representable here. -/
def isSpaceChar (c : Char) : Bool :=
  c = ' ' || c = '\t' || c = '\n' || c = '\r'

/-- Python `str.strip`: drop whitespace from both ends. -/
def stripChars (cs : List Char) : List Char :=
  ((cs.dropWhile isSpaceChar).reverse.dropWhile isSpaceChar).reverse

/-- Helper for `splitComma`, accumulating the current piece in reverse. -/
def splitCommaAux : List Char → List Char → List (List Char)
  | [], acc => [acc.reverse]
  | c :: cs, acc =>
    if c = ',' then acc.reverse :: splitCommaAux cs [] else splitCommaAux cs (c :: acc)

/-- Python `tags_text.split(",")`. -/
def splitComma (cs : List Char) : List (List Char) := splitCommaAux cs []

/-- The tag list comprehension of `save_video_changes` (src/main.py:482):
split the text on commas, strip each piece, keep the non-empty ones,
preserving order and multiplicity.  No deduplication is performed. -/
def parseTags (tagsText : String) : List String :=
  (((splitComma tagsText.data).map stripChars).map String.mk).filter (fun t => t ≠ "")

/-- The values read from the editor form by `save_video_changes`
(src/main.py:472-484): the three text fields, the three platform checkbox
variables (in the fixed order youtube, instagram, tiktok of
`self.platform_vars`) and the privacy menu. -/
structure FormInput where
  title : String
  description : String
  tagsText : String
  youtube : Bool
  instagram : Bool
  tiktok : Bool
  privacy : String
deriving DecidableEq, Repr

/-- The platform list comprehension of `save_video_changes`
(src/main.py:483): the checked platforms in dict order. -/
def formPlatforms (f : FormInput) : List String :=
  (if f.youtube then ["youtube"] else []) ++
    (if f.instagram then ["instagram"] else []) ++
    (if f.tiktok then ["tiktok"] else [])

/-- The `video.update` call of `save_video_changes` (src/main.py:487-493):
overwrite exactly the five metadata keys.  No status check is performed
anywhere in the method. -/
def saveVideoChanges (v : Video) (f : FormInput) : Video :=
  { v with
    title := f.title
    description := f.description
    tags := parseTags f.tagsText
    platforms := formPlatforms f
    privacy := f.privacy }

/-- `save_video_changes` seen from the queue: the Python code mutates the
selected video object in place, so the queue entry at the selected position
is replaced and all others are untouched. -/
def saveVideoChangesInQueue : List Video → Nat → FormInput → List Video
  | [], _, _ => []
  | v :: vs, 0, f => saveVideoChanges v f :: vs
  | v :: vs, i + 1, f => v :: saveVideoChangesInQueue vs i f

/- remove_video (src/main.py:501-507). -/

/-- The `self.videos.remove(video)` call on the confirmed path of
`remove_video`: Python `list.remove` deletes the first element equal to the
argument and raises `ValueError` (here `none`) when no element matches.  No
status check is performed. -/
def removeVideo : List Video → Video → Option (List Video)
  | [], _ => none
  | w :: ws, v => if w = v then some ws else (removeVideo ws v).map (fun r => w :: r)

/- upload_single_video (src/main.py:509-541). -/

/-- First statement of the upload thread body (src/main.py:514): set the
status to "uploading", executed unconditionally whatever the current
status. -/
def uploadStart (v : Video) : Video := { v with status := "uploading" }

/-- End of the upload thread body: status "completed" (src/main.py:527) when
the body ran without exception, status "failed" (src/main.py:537) in the
exception handler. -/
def uploadFinish (v : Video) (ok : Bool) : Video :=
  { v with status := if ok then "completed" else "failed" }

/-- The whole upload thread body as a state transformation of the video:
set status to "uploading", run the simulation loop (which touches only the
progress bar), then set the terminal status.  `ok` records whether the body
raised an exception. -/
def uploadSingleVideo (v : Video) (ok : Bool) : Video :=
  uploadFinish (uploadStart v) ok

/-- The loop counter values of the simulation loop `for i in range(101)`
(src/main.py:519). -/
def uploadTicks : List Nat := List.range 101

/-- The fraction shown on the progress bar at tick `i`, from the call
`self.progress_bar.set(i / 100)` (src/main.py:522). -/
def progressFraction (i : Nat) : ℚ := (i : ℚ) / 100

/-- The sequence of progress fractions displayed during one upload. -/
def uploadProgress : List ℚ := uploadTicks.map progressFraction

/-- Milliseconds slept per tick, from `time.sleep(0.05)` (src/main.py:520). -/
def sleepPerTickMs : Nat := 50

/-- Total simulated upload duration in milliseconds: a constant, independent
of the video, its platforms and the stored credentials. -/
def uploadDurationMs : Nat := uploadTicks.length * sleepPerTickMs

/-- Application state visible to the upload thread: the queue and the
credentials dict (`self.videos`, `self.credentials`). -/
structure AppState where
  videos : List Video
  credentials : Credentials
deriving DecidableEq, Repr

/-- Apply a per-video transformation at one queue position, embedding the
in-place mutation of the shared video object. -/
def updateAt : List Video → Nat → (Video → Video) → List Video
  | [], _, _ => []
  | v :: vs, 0, g => g v :: vs
  | v :: vs, i + 1, g => v :: updateAt vs i g

/-- `upload_single_video` acting on the whole application state: it rewrites
the status of the one selected video and reads or writes nothing else; in
particular `self.credentials` is never consulted. -/
def uploadSingleInApp (s : AppState) (i : Nat) (ok : Bool) : AppState :=
  { s with videos := updateAt s.videos i (fun v => uploadSingleVideo v ok) }

/- upload_all_videos (src/main.py:543-556). -/

/-- The pending filter of `upload_all_videos` (src/main.py:545): the videos
whose status equals "pending", in queue order. -/
def pendingVideos (videos : List Video) : List Video :=
  videos.filter (fun v => v.status = "pending")

/-- The launch schedule of the `upload_all_thread` loop (src/main.py:551-554):
the k-th listed video is handed to `upload_single_video` at time `t + k`
seconds, because `time.sleep(1)` follows every launch. -/
def launchesFrom (t : Nat) : List Video → List (Nat × Video)
  | [] => []
  | v :: vs => (t, v) :: launchesFrom (t + 1) vs

/-- `upload_all_videos`: when no video is pending it only shows an info box
and launches nothing; otherwise it launches exactly the pending videos, in
queue order, one second apart. -/
def uploadAllLaunches (videos : List Video) : List (Nat × Video) :=
  launchesFrom 0 (pendingVideos videos)

/- load_config (src/main.py:641-648). -/

/-- The credentials entry of a parsed `gui_config.json`: a dict whose
youtube / instagram keys, when present, replace the corresponding sub-dicts
wholesale (top-level `dict.update` semantics). -/
structure CredsPatch where
  youtube : Option YoutubeCreds
  instagram : Option InstagramCreds
deriving DecidableEq, Repr

/-- A parsed configuration file; `config.get` with default yields the empty
patch when the credentials key is absent. -/
structure ConfigFile where
  credentials : Option CredsPatch
deriving DecidableEq, Repr

/-- The `self.credentials.update` call of `load_config` (src/main.py:646). -/
def applyPatch (c : Credentials) (p : CredsPatch) : Credentials :=
  { youtube := p.youtube.getD c.youtube
    instagram := p.instagram.getD c.instagram }

/-- `load_config` (src/main.py:641-648): `file` is `none` when opening
`gui_config.json` raises `FileNotFoundError`, in which case the handler is
`pass` — no error propagates and the credentials are left alone. -/
def loadConfig (c : Credentials) (file : Option ConfigFile) : Credentials :=
  match file with
  | none => c
  | some cfg =>
    match cfg.credentials with
    | none => c
    | some p => applyPatch c p

/- Sample values used in concrete theorems. -/

/-- A freshly added video (status "pending"). -/
def pendingClip : Video := newVideo 0 "clip.mp4"

/-- The same video with status "uploading". -/
def uploadingClip : Video := { newVideo 0 "clip.mp4" with status := "uploading" }

/-- The same video with status "completed". -/
def completedClip : Video := { newVideo 0 "clip.mp4" with status := "completed" }

/-- A form input that changes the title. -/
def retitleForm : FormInput :=
  { title := "new title", description := "d", tagsText := "", youtube := true,
    instagram := false, tiktok := false, privacy := "private" }

/-- A form input whose tags text repeats the same tag. -/
def duplicateTagForm : FormInput :=
  { title := "t", description := "", tagsText := "fun, fun", youtube := true,
    instagram := false, tiktok := false, privacy := "public" }

/- Helper lemmas. -/

lemma addVideos_cons (q : List Video) (f : String) (fs : List String) :
    addVideos q (f :: fs) = addVideos (addVideo q f) fs := rfl

lemma addVideo_length (q : List Video) (f : String) :
    (addVideo q f).length = q.length + 1 := by simp [addVideo]

lemma addVideos_map_id (files : List String) (q : List Video) :
    (addVideos q files).map Video.id =
      q.map Video.id ++ List.range' (q.length + 1) files.length := by
  induction files generalizing q with
  | nil => simp [addVideos]
  | cons f fs ih =>
    rw [addVideos_cons, ih]
    simp [addVideo, newVideo, List.range'_succ]

lemma launchesFrom_map_snd (t : Nat) (l : List Video) :
    (launchesFrom t l).map Prod.snd = l := by
  induction l generalizing t with
  | nil => rfl
  | cons v vs ih => simp [launchesFrom, ih]

lemma launchesFrom_map_fst (t : Nat) (l : List Video) :
    (launchesFrom t l).map Prod.fst = List.range' t l.length := by
  induction l generalizing t with
  | nil => rfl
  | cons v vs ih => simp [launchesFrom, ih, List.range'_succ]

lemma mem_launchesFrom {t : Nat} {l : List Video} {p : Nat × Video}
    (h : p ∈ launchesFrom t l) : p.2 ∈ l := by
  induction l generalizing t with
  | nil => simp [launchesFrom] at h
  | cons v vs ih =>
    simp only [launchesFrom, List.mem_cons] at h
    rcases h with h | h
    · subst h; simp
    · exact List.mem_cons_of_mem _ (ih h)

lemma exists_mem_launchesFrom {l : List Video} {v : Video} (h : v ∈ l) (t : Nat) :
    ∃ k, (k, v) ∈ launchesFrom t l := by
  induction l generalizing t with
  | nil => simp at h
  | cons w ws ih =>
    rcases List.mem_cons.mp h with h | h
    · exact ⟨t, by simp [launchesFrom, h]⟩
    · obtain ⟨k, hk⟩ := ih h (t + 1)
      exact ⟨k, by simp [launchesFrom, hk]⟩

lemma saveInQueue_length (videos : List Video) (i : Nat) (f : FormInput) :
    (saveVideoChangesInQueue videos i f).length = videos.length := by
  induction videos generalizing i with
  | nil => rfl
  | cons v vs ih => cases i <;> simp [saveVideoChangesInQueue, ih]

lemma saveInQueue_getElem_ne (videos : List Video) (i j : Nat) (f : FormInput)
    (h : j ≠ i) :
    (saveVideoChangesInQueue videos i f)[j]? = videos[j]? := by
  induction videos generalizing i j with
  | nil => rfl
  | cons v vs ih =>
    cases i with
    | zero =>
      cases j with
      | zero => exact absurd rfl h
      | succ j => simp [saveVideoChangesInQueue]
    | succ i =>
      cases j with
      | zero => simp [saveVideoChangesInQueue]
      | succ j =>
        simp only [saveVideoChangesInQueue, List.getElem?_cons_succ]
        exact ih i j (by omega)

lemma saveInQueue_getElem_eq (videos : List Video) (i : Nat) (f : FormInput) :
    (saveVideoChangesInQueue videos i f)[i]? =
      (videos[i]?).map (fun v => saveVideoChanges v f) := by
  induction videos generalizing i with
  | nil => rfl
  | cons v vs ih => cases i <;> simp [saveVideoChangesInQueue, ih]

/- Claim theorems. -/

/-- C1 (amended): `upload_single_video` unconditionally sets the status of
the job to "uploading" and then to "completed" (no exception) or "failed"
(exception), regardless of its prior status; there is no guard and no
separate retry operation, so a "completed" or "failed" job regresses to
"uploading" when an upload is started on it. -/
theorem upload_regresses_status (v : Video) (ok : Bool) :
    (uploadStart v).status = "uploading" ∧
    (uploadSingleVideo v ok).status = (if ok then "completed" else "failed") :=
  ⟨rfl, rfl⟩

/-- C1 counterexample: starting an upload on a job whose status is
"completed" does return it to "uploading", contradicting the claim that this
never happens. -/
theorem upload_on_completed_counterexample :
    completedClip.status = "completed" ∧
    (uploadStart completedClip).status = "uploading" := ⟨rfl, rfl⟩

/-- C2 counterexample: removing a job whose status is "uploading" succeeds
and deletes it from the queue, contradicting the claimed InvalidState
rejection. -/
theorem remove_uploading_counterexample :
    uploadingClip.status = "uploading" ∧
    removeVideo [uploadingClip] uploadingClip = some [] :=
  ⟨rfl, by simp [removeVideo]⟩

/-- C2 (amended): the confirmed remove operation deletes the job from the
queue whatever its status — in particular while it is "uploading"; no
InvalidState error exists in the code. -/
theorem remove_ignores_status (v : Video) (vs : List Video) :
    removeVideo (v :: vs) v = some vs := by simp [removeVideo]

/-- C3 counterexample: the metadata update applied to a job whose status is
"uploading" succeeds and changes the title, contradicting the claimed
InvalidState rejection and metadata immutability. -/
theorem update_uploading_counterexample :
    uploadingClip.status = "uploading" ∧
    uploadingClip.title = "clip" ∧
    (saveVideoChanges uploadingClip retitleForm).title = "new title" ∧
    (saveVideoChanges uploadingClip retitleForm).status = "uploading" :=
  ⟨rfl, by decide, rfl, rfl⟩

/-- C3 (amended): `save_video_changes` applies the new title, description,
tags, platforms and privacy whatever the status of the job, leaving the
status itself unchanged; metadata stays mutable after upload starts and no
InvalidState failure exists. -/
theorem update_ignores_status (v : Video) (f : FormInput) (s : String) :
    saveVideoChanges { v with status := s } f = { saveVideoChanges v f with status := s } ∧
    (saveVideoChanges v f).status = v.status ∧
    (saveVideoChanges v f).title = f.title ∧
    (saveVideoChanges v f).description = f.description ∧
    (saveVideoChanges v f).privacy = f.privacy :=
  ⟨rfl, rfl, rfl, rfl, rfl⟩

/-- C4 counterexample: after adding two videos (ids 1 and 2), removing the
first and adding a third, the queue ids are [2, 2] — the new id 2 is neither
unique among all jobs ever created nor greater than the previously assigned
id 2, because `add_videos` computes ids as queue length + 1. -/
theorem add_after_remove_duplicates_id :
    ((removeVideo (addVideos [] ["a.mp4", "b.mp4"]) (newVideo 0 "a.mp4")).map
      (fun q => (addVideo q "c.mp4").map Video.id)) = some [2, 2] := by decide

/-- C4 (amended): each add assigns the identifier queue length + 1, so in a
sequence consisting only of adds the identifiers are 1, 2, ..., n — unique
and strictly increasing; a removal shortens the queue and lets a later add
reuse an existing identifier. -/
theorem ids_increasing_without_removal (files : List String) :
    (addVideos [] files).map Video.id = List.range' 1 files.length ∧
    ((addVideos [] files).map Video.id).Nodup ∧
    List.Pairwise (fun a b => a < b) ((addVideos [] files).map Video.id) := by
  have h := addVideos_map_id files []
  simp only [List.map_nil, List.length_nil, List.nil_append, Nat.zero_add] at h
  refine ⟨h, ?_, ?_⟩ <;> rw [h]
  · apply List.nodup_range'
    norm_num
  · apply List.pairwise_lt_range'
    norm_num

/-- C5: the single-video upload is a credential- and platform-independent
simulation: it never touches `self.credentials`, rewrites only the selected
video, sets its status to "uploading" and ends at "completed" (or "failed"
on an exception), the result is independent of the platform selection, the
progress ticks run from 0 to 100 so the displayed fraction steps from 0 to
1, and the simulated duration is the fixed 101 × 50 ms. -/
theorem upload_single_is_pure_simulation (s : AppState) (i : Nat) (v : Video)
    (ok : Bool) (ps : List String) (c : Credentials) :
    (uploadSingleInApp s i ok).credentials = s.credentials ∧
    uploadSingleInApp { videos := s.videos, credentials := c } i ok =
      { videos := (uploadSingleInApp s i ok).videos, credentials := c } ∧
    (uploadStart v).status = "uploading" ∧
    (uploadSingleVideo v ok).status = (if ok then "completed" else "failed") ∧
    uploadSingleVideo { v with platforms := ps } ok =
      { uploadSingleVideo v ok with platforms := ps } ∧
    uploadTicks.head? = some 0 ∧
    uploadTicks.getLast? = some 100 ∧
    progressFraction 0 = 0 ∧
    progressFraction 100 = 1 ∧
    uploadDurationMs = 5050 := by
  refine ⟨rfl, rfl, rfl, rfl, rfl, by decide, by decide, ?_, ?_, by decide⟩
  · simp [progressFraction]
  · norm_num [progressFraction]

/-- C6: every video created by `add_videos` is appended with status
"pending" and platform list exactly ["youtube"], the default-enabled
platform set. -/
theorem new_video_defaults (q : List Video) (p : String) :
    addVideo q p = q ++ [newVideo q.length p] ∧
    (newVideo q.length p).status = "pending" ∧
    (newVideo q.length p).platforms = ["youtube"] := ⟨rfl, rfl, rfl⟩

/-- C7 counterexample: saving a tags string in which the trimmed tag "fun"
appears twice stores it twice — the stored tag collection contains
duplicates, contradicting the claim. -/
theorem duplicate_tags_kept_counterexample :
    (saveVideoChanges pendingClip duplicateTagForm).tags = ["fun", "fun"] ∧
    ¬ ((saveVideoChanges pendingClip duplicateTagForm).tags.Nodup) := by decide

/-- C7 (amended): after a metadata save the stored tags are exactly the
whitespace-trimmed non-empty comma-separated entries of the form text, in
order of appearance and with duplicates preserved (every stored tag is
non-empty, but a tag appearing twice is stored twice). -/
theorem tags_trimmed_nonempty (v : Video) (f : FormInput) :
    (saveVideoChanges v f).tags = parseTags f.tagsText ∧
    ∀ t ∈ parseTags f.tagsText, t ≠ "" := by
  refine ⟨rfl, ?_⟩
  intro t ht
  have h := List.of_mem_filter ht
  simpa using h

/-- C7 witness: the amended theorem applied to the duplicate-tag form, with
"fun" a member of the parsed tags. -/
theorem tags_trimmed_nonempty_witness :
    (saveVideoChanges pendingClip duplicateTagForm).tags =
      parseTags duplicateTagForm.tagsText ∧ "fun" ≠ "" := by
  have h := tags_trimmed_nonempty pendingClip duplicateTagForm
  exact ⟨h.1, h.2 "fun" (by decide)⟩

/-- C8: `upload_all_videos` launches exactly the videos that are pending at
invocation time — the launched sequence is the pending filter of the queue,
hence a subsequence of the queue (queue order, only pending videos, every
pending video launched), launch times are 0, 1, 2, ... seconds (the fixed
one-second delay between launches), and nothing is launched when no video is
pending. -/
theorem upload_all_schedule (videos : List Video) :
    ((uploadAllLaunches videos).map Prod.snd = pendingVideos videos) ∧
    List.Sublist ((uploadAllLaunches videos).map Prod.snd) videos ∧
    (∀ p ∈ uploadAllLaunches videos, p.2.status = "pending") ∧
    (∀ v ∈ videos, v.status = "pending" → ∃ k, (k, v) ∈ uploadAllLaunches videos) ∧
    ((uploadAllLaunches videos).map Prod.fst =
      List.range' 0 (pendingVideos videos).length) ∧
    (pendingVideos videos = [] → uploadAllLaunches videos = []) := by
  refine ⟨launchesFrom_map_snd 0 _, ?_, ?_, ?_, launchesFrom_map_fst 0 _, ?_⟩
  · show (List.map Prod.snd (launchesFrom 0 (pendingVideos videos))).Sublist videos
    rw [launchesFrom_map_snd]
    exact List.filter_sublist videos
  · intro p hp
    have h := mem_launchesFrom hp
    have h2 := List.mem_filter.mp h
    simpa using h2.2
  · intro v hv hpend
    apply exists_mem_launchesFrom
    exact List.mem_filter.mpr ⟨hv, by simp [hpend]⟩
  · intro h
    simp [uploadAllLaunches, h, launchesFrom]

/-- C8 witness: on a one-element pending queue the schedule launches that
video. -/
theorem upload_all_schedule_witness :
    ∃ k, (k, pendingClip) ∈ uploadAllLaunches [pendingClip] := by
  have h := upload_all_schedule [pendingClip]
  exact h.2.2.2.1 pendingClip (by simp) rfl

/-- C9: when the configuration file is absent, `load_config` returns without
error and leaves every credential field untouched; in particular the startup
credentials stay at their empty defaults. -/
theorem load_config_absent_silent (c : Credentials) :
    loadConfig c none = c ∧
    loadConfig initialCredentials none = initialCredentials ∧
    initialCredentials.youtube.client_id = "" ∧
    initialCredentials.youtube.client_secret = "" ∧
    initialCredentials.youtube.authenticated = false ∧
    initialCredentials.instagram.username = "" ∧
    initialCredentials.instagram.password = "" ∧
    initialCredentials.instagram.authenticated = false :=
  ⟨rfl, rfl, rfl, rfl, rfl, rfl, rfl, rfl⟩

/-- C10: a metadata save keeps the queue length, leaves every other queue
entry untouched, replaces the selected entry by its updated version, and on
the updated video leaves id, path, name and status unchanged (only title,
description, tags, platforms and privacy are written). -/
theorem save_changes_frame (videos : List Video) (i : Nat) (f : FormInput) :
    ((saveVideoChangesInQueue videos i f).length = videos.length) ∧
    (∀ j, j ≠ i → (saveVideoChangesInQueue videos i f)[j]? = videos[j]?) ∧
    ((saveVideoChangesInQueue videos i f)[i]? =
      (videos[i]?).map (fun v => saveVideoChanges v f)) ∧
    (∀ v : Video, (saveVideoChanges v f).id = v.id ∧
      (saveVideoChanges v f).path = v.path ∧
      (saveVideoChanges v f).name = v.name ∧
      (saveVideoChanges v f).status = v.status) := by
  refine ⟨saveInQueue_length videos i f, ?_, saveInQueue_getElem_eq videos i f, ?_⟩
  · intro j hj
    exact saveInQueue_getElem_ne videos i j f hj
  · intro v
    exact ⟨rfl, rfl, rfl, rfl⟩

/-- C10 witness: saving at position 0 of a two-element queue leaves the
entry at position 1 unchanged. -/
theorem save_changes_frame_witness :
    (saveVideoChangesInQueue [pendingClip, uploadingClip] 0 retitleForm)[1]? =
      ([pendingClip, uploadingClip] : List Video)[1]? := by
  have h := save_changes_frame [pendingClip, uploadingClip] 0 retitleForm
  exact h.2.1 1 (by decide)

end Autopost
